import Mathlib

/-!
Verification of the go-logging package (InfinityTools/go-logging) against its
natural-language specification.  The Go source is shallowly embedded: the
`Logger` struct becomes a Lean structure, each method becomes a pure function
from the old state to the new state (plus, for the emission pipeline, a record
of the writes performed and an optional panic payload).  Go `int` is embedded
as `Int`; Go's `io.Writer` interface values are embedded as an inductive
`Writer` type where `none : Option Writer` stands for a nil interface value.
Go `int` is 64-bit with two's-complement wraparound, so the arithmetic inside
`Progress` goes through an explicit `wrap64` and Go's `/` is truncated
division (`Int.tdiv`).
-/

namespace Logging

/-- Severity levels, from the source's const block (`LOG = iota`, ...). -/
abbrev LOG : Int := 0

/-- Severity level INFO. -/
abbrev INFO : Int := 1

/-- Severity level WARN. -/
abbrev WARN : Int := 2

/-- Severity level ERROR. -/
abbrev ERROR : Int := 3

/-- Severity level CRITICAL. -/
abbrev CRITICAL : Int := 4

/-- Predefined timestamp formats from the source. -/
def TS_FMT_DATE : String := "2006-01-02"

def TS_FMT_TIME : String := "15:04:05"

def TS_FMT_TIME_MILLI : String := "15:04:05.000"

def TS_FMT_TIME_MICRO : String := "15:04:05.000000"

def TS_FMT_DATETIME : String := "2006-01-02 15:04:05"

def TS_FMT_DATETIME_MILLI : String := "2006-01-02 15:04:05.000"

def TS_FMT_DATETIME_MICRO : String := "2006-01-02 15:04:05.000000"

def TS_FMT_TIME_TZ : String := "15:04:05-0700"

def TS_FMT_TIME_TZ_MILLI : String := "15:04:05.000-0700"

def TS_FMT_TIME_TZ_MICRO : String := "15:04:05.000000-0700"

def TS_FMT_DATETIME_TZ : String := "2006-01-02 15:04:05-0700"

def TS_FMT_DATETIME_TZ_MILLI : String := "2006-01-02 15:04:05.000-0700"

def TS_FMT_DATETIME_TZ_MICRO : String := "2006-01-02 15:04:05.000000-0700"

/-- An `io.Writer` value: `os.Stdout`, `os.Stderr`, the per-platform `Stdnull`
device, or a caller-supplied writer.  The `failing` flag models whether
`fmt.Fprintf` to the writer returns a non-nil error (the OS standard streams
are modelled as never failing). -/
inductive Writer where
  | stdout : Writer
  | stderr : Writer
  | stdnull : Writer
  | custom (id : Nat) (failing : Bool) : Writer
deriving DecidableEq, Repr

/-- Whether a write to this writer fails (`fmt.Fprintf` returns an error). -/
def Writer.fails : Writer → Bool
  | .custom _ f => f
  | _ => false

/-- The Logger struct.  The Go `outputMap` (`map[int]io.Writer`) is embedded as
a total function `Int → Option Writer`: a key that was never assigned, and a
key assigned a nil interface value, both read back as `none`, exactly as a Go
map read returns the zero value `nil` in both cases. -/
structure Logger where
  verbosity : Int
  output : Int → Option Writer
  overrideStack : List Bool
  prefixTS : Bool
  prefixLevel : Bool
  prefixCaller : Bool
  fmtTimestamp : String

/-- NewLogger returns a new logger object (verbosity INFO, LOG/INFO mapped to
stdout, WARN/ERROR/CRITICAL mapped to stderr, all prefixes off, timestamp
format `TS_FMT_TIME_MILLI`). -/
def NewLogger : Logger where
  verbosity := INFO
  output := fun k =>
    if k = LOG then some .stdout
    else if k = INFO then some .stdout
    else if k = WARN then some .stderr
    else if k = ERROR then some .stderr
    else if k = CRITICAL then some .stderr
    else none
  overrideStack := []
  prefixTS := false
  prefixLevel := false
  prefixCaller := false
  fmtTimestamp := TS_FMT_TIME_MILLI

/-- GetVerbosity returns the current verbosity level. -/
def Logger.GetVerbosity (l : Logger) : Int :=
  l.verbosity

/-- SetVerbosity sets the current verbosity level, clamped into
[LOG, CRITICAL]. -/
def Logger.SetVerbosity (l : Logger) (level : Int) : Logger :=
  let level := if level < LOG then LOG else level
  let level := if level > CRITICAL then CRITICAL else level
  { l with verbosity := level }

/-- IncreaseVerbosity increases the current verbosity by one level; does
nothing at CRITICAL.  Returns the updated logger and the new verbosity level
(the Go method mutates the receiver and returns `l.verbosity`). -/
def Logger.IncreaseVerbosity (l : Logger) : Logger × Int :=
  let l := if l.verbosity < CRITICAL then { l with verbosity := l.verbosity + 1 } else l
  (l, l.verbosity)

/-- DecreaseVerbosity decreases the current verbosity by one level; does
nothing at LOG.  Returns the updated logger and the new verbosity level. -/
def Logger.DecreaseVerbosity (l : Logger) : Logger × Int :=
  let l := if l.verbosity > LOG then { l with verbosity := l.verbosity - 1 } else l
  (l, l.verbosity)

/-- SetPrefixTimestamp defines whether log messages should be prefixed by the
current timestamp. -/
def Logger.SetPrefixTimestamp (l : Logger) (set : Bool) : Logger :=
  { l with prefixTS := set }

/-- SetTimestampFormat sets a new format string for the timestamp. -/
def Logger.SetTimestampFormat (l : Logger) (format : String) : Logger :=
  { l with fmtTimestamp := format }

/-- SetPrefixCaller defines whether log messages should be prefixed by name
and line number of the calling function. -/
def Logger.SetPrefixCaller (l : Logger) (set : Bool) : Logger :=
  { l with prefixCaller := set }

/-- SetPrefixLevel defines whether log messages should be prefixed by a
symbolic name of their level. -/
def Logger.SetPrefixLevel (l : Logger) (set : Bool) : Logger :=
  { l with prefixLevel := set }

/-- GetOutput returns the Writer for messages of the given level, `none`
(Go: nil) for unsupported levels. -/
def Logger.GetOutput (l : Logger) (level : Int) : Option Writer :=
  if level < LOG ∨ level > CRITICAL then none
  else l.output level

/-- SetOutput redirects log messages of the given level to the specified
writer.  Unsupported levels are ignored.  For a nil writer the source's
`switch` has empty statement bodies for `case WARN:` and `case ERROR:`
(Go cases do not fall through), so only CRITICAL receives stderr and the
default branch (LOG, INFO) receives stdout; for WARN and ERROR the writer
stays nil and a nil sink is stored. -/
def Logger.SetOutput (l : Logger) (level : Int) (writer : Option Writer) : Logger :=
  if level < LOG ∨ level > CRITICAL then l
  else
    let writer :=
      match writer with
      | none =>
        if level = WARN then none
        else if level = ERROR then none
        else if level = CRITICAL then some Writer.stderr
        else some Writer.stdout
      | some w => some w
    { l with output := fun k => if k = level then writer else l.output k }

/-- Used internally (lowercase `getOutput` in the source): returns the writer
of the specified level after clamping the level into [LOG, CRITICAL]. -/
def Logger.getOutput (l : Logger) (level : Int) : Option Writer :=
  let level := if level < LOG then LOG else level
  let level := if level > CRITICAL then CRITICAL else level
  l.output level

/-- Used internally: pushes the current prefix flags onto the override stack
(in the order prefixTS, prefixCaller, prefixLevel) and applies the new ones. -/
def Logger.pushOverride (l : Logger) (ts caller level : Bool) : Logger :=
  { l with
    overrideStack := l.overrideStack ++ [l.prefixTS, l.prefixCaller, l.prefixLevel]
    prefixTS := ts
    prefixCaller := caller
    prefixLevel := level }

/-- Used internally: restores the most recent prefix override (the last three
stack entries, read back as prefixTS, prefixCaller, prefixLevel) and truncates
the stack.  Does nothing if fewer than three entries are stored. -/
def Logger.popOverride (l : Logger) : Logger :=
  if 2 < l.overrideStack.length then
    let idx := l.overrideStack.length - 3
    { l with
      prefixTS := l.overrideStack.getD idx false
      prefixCaller := l.overrideStack.getD (idx + 1) false
      prefixLevel := l.overrideStack.getD (idx + 2) false
      overrideStack := l.overrideStack.take idx }
  else l

/-- OverridePrefix overrides the prefix settings for the next log-emission
call: it pushes the current flag triple and applies the new one, returning
the logger for chaining. -/
def Logger.OverridePrefix (l : Logger) (showTimestamp showCaller showLevel : Bool) : Logger :=
  l.pushOverride showTimestamp showCaller showLevel

/-- The loop `for ; i2 > i1; i1++ { s += symbol }` from `Progress`, with the
remaining iteration count made explicit. -/
def progressLoop : Nat → String → String → String
  | 0, s, _ => s
  | n + 1, s, symbol => progressLoop n (s ++ symbol) symbol

/-- Two's-complement wraparound of Go's 64-bit `int`: the representative of
`x` modulo `2^64` in `[-2^63, 2^63)`.  Every Go arithmetic operator computes
its mathematical result and wraps it through this function. -/
def wrap64 (x : Int) : Int :=
  (x + 2 ^ 63) % 2 ^ 64 - 2 ^ 63

/-- Progress returns a sequence of zero or more instances of `symbol`.  It is
a top-level function taking no `Logger`: it reads and writes no logger state.
Go `int` arithmetic is 64-bit two's complement, so the sum `cur + 1` and both
products wrap through `wrap64`, and Go's `/` truncates toward zero
(`Int.tdiv`; the divisor `max` is positive past the guard, and the quotients
are in range).  The loop `for ; i2 > i1; i1++ { s += symbol }` appends
`i2 - i1` copies when `i2 > i1` and none otherwise; the iteration count is a
plain count and cannot wrap. -/
def Progress (cur max progressMax : Int) (symbol : String) : String :=
  let s := ""
  if max < 1 ∨ progressMax < 1 then s
  else if cur < 0 ∨ cur ≥ max then s
  else
    let i1 := (wrap64 (cur * progressMax)).tdiv max
    let i2 := (wrap64 (wrap64 (cur + 1) * progressMax)).tdiv max
    progressLoop (i2 - i1).toNat s symbol

/-- ProgressDot is the specialized version of Progress using `"."`. -/
def ProgressDot (cur max progressMax : Int) : String :=
  Progress cur max progressMax "."

/-- Environment inputs consumed by the emission pipeline but produced outside
the repository: `formatTime` models `time.Now().Format(layout)` as a function
of the layout string; `caller` models the `"function:line "` string produced
by the runtime stack walk (empty when no external frame is found); `writeErr`
models the rendering `%v` of the error a failing write returns. -/
structure LogEnv where
  formatTime : String → String
  caller : String
  writeErr : String

/-- Used internally (`getLevelString`): the fixed 4-character level label,
after clamping the level into [LOG, CRITICAL]. -/
def Logger.getLevelString (_l : Logger) (level : Int) : String :=
  let level := if level < LOG then LOG else level
  let level := if level > CRITICAL then CRITICAL else level
  if level = LOG then "LOG "
  else if level = INFO then "INFO"
  else if level = WARN then "WARN"
  else if level = ERROR then "ERRO"
  else if level = CRITICAL then "CRIT"
  else "    "

/-- Used internally (`getLogPrefix`): concatenates, in order, the formatted
timestamp plus a space (if enabled), the caller location (if enabled; the
environment string already carries its trailing space, matching the
`"%s:%d "` format of the source), and the level label plus a space (if
enabled). -/
def Logger.getLogPrefixStr (l : Logger) (env : LogEnv) (level : Int) : String :=
  (if l.prefixTS then env.formatTime l.fmtTimestamp ++ " " else "")
    ++ (if l.prefixCaller then env.caller else "")
    ++ (if l.prefixLevel then l.getLevelString level ++ " " else "")

/-- The outcome of one emission call: the logger state afterwards, the list of
(writer, text) pairs successfully written, and the payload of the panic raised
(if any).  A Go panic unwinds the call without touching the logger fields, so
the state at panic time is carried in `logger`. -/
structure EmitResult where
  logger : Logger
  writes : List (Writer × String)
  panicMsg : Option String

/-- The panic message Go raises when `fmt.Fprintf` is invoked on a nil
`io.Writer` interface value. -/
def nilWriterPanic : String := "runtime error: invalid memory address or nil pointer dereference"

/-- Used internally (`logf`): handles writing log messages.  The message
argument stands for the already-formatted `fmt.Sprintf(format, a...)` result
(formatting happens in the Go standard library, outside this repository).
Mirrors the source line by line: clamp the level from above only; if the level
reaches the verbosity, panic at CRITICAL (before any write and before the
pop), resolve a nil writer argument through `getOutput`, build the prefix,
write prefix+message, and on a write error recursively emit an ERROR-level
diagnostic to stderr; finally pop one override layer — except that a panic
unwinds first.  The fuel bounds the write-failure recursion; stderr never
fails in the model, so recursion depth is at most one and any fuel ≥ 2 gives
the exact source behavior. -/
def logfAux : Nat → Logger → Option Writer → Int → LogEnv → String → EmitResult
  | fuel, l, w0, level0, env, msg =>
    let level := if level0 > CRITICAL then CRITICAL else level0
    if l.verbosity ≤ level then
      if level = CRITICAL then
        { logger := l, writes := [], panicMsg := some msg }
      else
        let w := match w0 with
          | none => l.getOutput level
          | some wr => some wr
        match w with
        | none => { logger := l, writes := [], panicMsg := some nilWriterPanic }
        | some wr =>
          let pfx := l.getLogPrefixStr env level
          if wr.fails then
            match fuel with
            | 0 => { logger := l.popOverride, writes := [], panicMsg := none }
            | fuel' + 1 =>
              let r := logfAux fuel' l (some Writer.stderr) ERROR env
                ("logging.Logf(): " ++ env.writeErr)
              { logger := r.logger.popOverride, writes := r.writes, panicMsg := r.panicMsg }
          else
            { logger := l.popOverride, writes := [(wr, pfx ++ msg)], panicMsg := none }
    else
      { logger := l.popOverride, writes := [], panicMsg := none }

/-- `logf` with enough fuel that the write-failure recursion is never cut
short (stderr never fails in the model, so depth ≤ 1). -/
def Logger.logf (l : Logger) (w : Option Writer) (level : Int) (env : LogEnv) (msg : String) : EmitResult :=
  logfAux 8 l w level env msg

/-- The shared shape of Log/Info/Warn/Error/Critical: each public emission
method is `l.logf(l.getOutput(LEVEL), LEVEL, msg)` at its fixed level; the
`f` and `ln` variants are the same call with a different message string. -/
def Logger.emitAt (l : Logger) (level : Int) (env : LogEnv) (msg : String) : EmitResult :=
  l.logf (l.getOutput level) level env msg

/-- Log prints the LOG message if verbosity is LOG. -/
def Logger.Log (l : Logger) (env : LogEnv) (msg : String) : EmitResult :=
  l.emitAt LOG env msg

/-- Info prints the message if verbosity is INFO or lower. -/
def Logger.Info (l : Logger) (env : LogEnv) (msg : String) : EmitResult :=
  l.emitAt INFO env msg

/-- Warn prints the message if verbosity is WARN or lower. -/
def Logger.Warn (l : Logger) (env : LogEnv) (msg : String) : EmitResult :=
  l.emitAt WARN env msg

/-- Error prints the message if verbosity is ERROR or lower. -/
def Logger.Error (l : Logger) (env : LogEnv) (msg : String) : EmitResult :=
  l.emitAt ERROR env msg

/-- Critical invokes a panic with the specified message.  `msg` stands for
`fmt.Sprintf(msg)`, which is `msg` itself for a message without format verbs. -/
def Logger.Critical (l : Logger) (env : LogEnv) (msg : String) : EmitResult :=
  l.emitAt CRITICAL env msg

/-- Criticalf invokes a panic with the formatted string (`msg` stands for the
`fmt.Sprintf(format, a...)` result). -/
def Logger.Criticalf (l : Logger) (env : LogEnv) (msg : String) : EmitResult :=
  l.emitAt CRITICAL env msg

/-- Criticalln invokes a panic with the message and a newline:
`fmt.Sprintf("%s\n", msg)` is exactly `msg ++ "\n"`. -/
def Logger.Criticalln (l : Logger) (env : LogEnv) (msg : String) : EmitResult :=
  l.emitAt CRITICAL env (msg ++ "\n")

/-- The shared shape of LogProgress/InfoProgress/WarnProgress/ErrorProgress at
a given fixed level: compute the progress string and, if non-empty, push an
all-off prefix override and emit it through `logf`. -/
def Logger.progressAt (l : Logger) (level : Int) (cur max progressMax : Int) (symbol : String) (env : LogEnv) : EmitResult :=
  let s := Progress cur max progressMax symbol
  if 0 < s.length then
    let l' := l.pushOverride false false false
    l'.logf (l'.getOutput level) level env s
  else
    { logger := l, writes := [], panicMsg := none }

/-- One public mutating operation on a Logger, for the reachability machine.
The emission constructors carry the fixed level of the corresponding public
method; message strings cover the plain, `f` and `ln` variants. -/
inductive Op where
  | setVerbosity (level : Int) : Op
  | increaseVerbosity : Op
  | decreaseVerbosity : Op
  | setPrefixTimestamp (b : Bool) : Op
  | setPrefixCaller (b : Bool) : Op
  | setPrefixLevel (b : Bool) : Op
  | setTimestampFormat (s : String) : Op
  | setOutput (level : Int) (w : Option Writer) : Op
  | overridePrefix (ts caller lvl : Bool) : Op
  | logMsg (env : LogEnv) (msg : String) : Op
  | infoMsg (env : LogEnv) (msg : String) : Op
  | warnMsg (env : LogEnv) (msg : String) : Op
  | errorMsg (env : LogEnv) (msg : String) : Op
  | criticalMsg (env : LogEnv) (msg : String) : Op
  | logProgress (cur max pm : Int) (symbol : String) (env : LogEnv) : Op
  | infoProgress (cur max pm : Int) (symbol : String) (env : LogEnv) : Op
  | warnProgress (cur max pm : Int) (symbol : String) (env : LogEnv) : Op
  | errorProgress (cur max pm : Int) (symbol : String) (env : LogEnv) : Op

/-- The logger state after one public operation (for an emission that panics,
the heap state the caller observes after recovering). -/
def step (l : Logger) : Op → Logger
  | .setVerbosity v => l.SetVerbosity v
  | .increaseVerbosity => l.IncreaseVerbosity.1
  | .decreaseVerbosity => l.DecreaseVerbosity.1
  | .setPrefixTimestamp b => l.SetPrefixTimestamp b
  | .setPrefixCaller b => l.SetPrefixCaller b
  | .setPrefixLevel b => l.SetPrefixLevel b
  | .setTimestampFormat s => l.SetTimestampFormat s
  | .setOutput level w => l.SetOutput level w
  | .overridePrefix ts caller lvl => l.OverridePrefix ts caller lvl
  | .logMsg env msg => (l.Log env msg).logger
  | .infoMsg env msg => (l.Info env msg).logger
  | .warnMsg env msg => (l.Warn env msg).logger
  | .errorMsg env msg => (l.Error env msg).logger
  | .criticalMsg env msg => (l.Critical env msg).logger
  | .logProgress cur mx pm sym env => (l.progressAt LOG cur mx pm sym env).logger
  | .infoProgress cur mx pm sym env => (l.progressAt INFO cur mx pm sym env).logger
  | .warnProgress cur mx pm sym env => (l.progressAt WARN cur mx pm sym env).logger
  | .errorProgress cur mx pm sym env => (l.progressAt ERROR cur mx pm sym env).logger

/-- The logger states reachable from `NewLogger` via the public operations. -/
def Reachable (l : Logger) : Prop :=
  ∃ ops : List Op, l = ops.foldl step NewLogger

/-- `n` concatenated copies of `symbol`. -/
def strRepeat : Nat → String → String
  | 0, _ => ""
  | n + 1, symbol => symbol ++ strRepeat n symbol

/-- The number of copies of the symbol that `Progress` emits, as a closed
formula over the same wrapped arithmetic (`i2 - i1` under the guards when
positive, 0 otherwise). -/
def progressCopies (cur max progressMax : Int) : Nat :=
  if max < 1 ∨ progressMax < 1 then 0
  else if cur < 0 ∨ cur ≥ max then 0
  else ((wrap64 (wrap64 (cur + 1) * progressMax)).tdiv max
    - (wrap64 (cur * progressMax)).tdiv max).toNat

/-- A concrete environment for instantiating theorems at a specific input. -/
def envA : LogEnv where
  formatTime := fun _ => "12:00:00.000"
  caller := "main.main:10 "
  writeErr := "broken pipe"

lemma popOverride_of_nilStack (l : Logger) (h : l.overrideStack = []) : l.popOverride = l := by
  simp [Logger.popOverride, h]

lemma popOverride_of_append (l : Logger) (pre : List Bool) (a b c : Bool)
    (h : l.overrideStack = pre ++ [a, b, c]) :
    l.popOverride
      = { l with prefixTS := a, prefixCaller := b, prefixLevel := c, overrideStack := pre } := by
  have hlen : l.overrideStack.length = pre.length + 3 := by rw [h]; simp
  unfold Logger.popOverride
  rw [if_pos (by omega)]
  have e0 : l.overrideStack.length - 3 = pre.length := by omega
  rw [e0, h]
  have g0 : (pre ++ [a, b, c]).getD pre.length false = a := by
    simp [List.getD, List.getElem?_append_right, List.getElem_append_right]
  have g1 : (pre ++ [a, b, c]).getD (pre.length + 1) false = b := by
    simp [List.getD, List.getElem?_append_right, List.getElem_append_right]
  have g2 : (pre ++ [a, b, c]).getD (pre.length + 2) false = c := by
    simp [List.getD, List.getElem?_append_right, List.getElem_append_right]
  simp only [g0, g1, g2, List.take_left]

lemma emitAt_suppressed (l : Logger) (lvl : Int) (env : LogEnv) (msg : String)
    (hlvl : lvl ≤ ERROR) (hsup : lvl < l.verbosity) :
    l.emitAt lvl env msg = { logger := l.popOverride, writes := [], panicMsg := none } := by
  have hlvl' : lvl ≤ (3 : Int) := hlvl
  unfold Logger.emitAt Logger.logf
  rw [logfAux.eq_def]
  simp only
  rw [if_neg (show ¬ lvl > (4 : Int) by omega), if_neg (show ¬ l.verbosity ≤ lvl by omega)]

lemma emitAt_written (l : Logger) (lvl : Int) (env : LogEnv) (msg : String) (wr : Writer)
    (hlvl : lvl ≤ ERROR) (hemit : l.verbosity ≤ lvl)
    (hw : l.getOutput lvl = some wr) (hf : wr.fails = false) :
    l.emitAt lvl env msg =
      { logger := l.popOverride,
        writes := [(wr, l.getLogPrefixStr env lvl ++ msg)],
        panicMsg := none } := by
  have hlvl' : lvl ≤ (3 : Int) := hlvl
  unfold Logger.emitAt Logger.logf
  rw [logfAux.eq_def]
  simp only
  rw [if_neg (show ¬ lvl > (4 : Int) by omega), if_pos hemit,
    if_neg (show ¬ lvl = (4 : Int) by omega), hw]
  simp only
  rw [if_neg (by simp [hf])]

lemma logfAux_logger_of_nilStack (fuel : Nat) (l : Logger) (w : Option Writer) (lvl : Int)
    (env : LogEnv) (msg : String) (h : l.overrideStack = []) :
    (logfAux fuel l w lvl env msg).logger = l := by
  induction fuel generalizing w lvl msg with
  | zero =>
    rw [logfAux.eq_def]
    repeat' split
    all_goals simp_all [apply_ite EmitResult.logger, popOverride_of_nilStack]
    all_goals intro _ _
    all_goals repeat' split
    all_goals rfl
  | succ n ih =>
    rw [logfAux.eq_def]
    repeat' split
    all_goals simp_all [apply_ite EmitResult.logger, popOverride_of_nilStack]
    all_goals intro _ _
    all_goals repeat' split
    all_goals rfl

lemma progressLoop_eq_append (n : Nat) (s symbol : String) :
    progressLoop n s symbol = s ++ strRepeat n symbol := by
  induction n generalizing s with
  | zero => simp [progressLoop, strRepeat, String.append_empty]
  | succ n ih => simp [progressLoop, strRepeat, ih, String.append_assoc]

lemma Progress_eq_strRepeat (cur max pm : Int) (symbol : String) :
    Progress cur max pm symbol = strRepeat (progressCopies cur max pm) symbol := by
  unfold Progress progressCopies
  by_cases h1 : max < 1 ∨ pm < 1
  · simp [h1, strRepeat]
  · by_cases h2 : cur < 0 ∨ cur ≥ max
    · simp [h1, h2, strRepeat]
    · simp only [h1, h2, if_false]
      rw [progressLoop_eq_append]
      simp [String.empty_append]

lemma wrap64_eq_self (x : Int) (hlo : -(2 ^ 63) ≤ x) (hhi : x < 2 ^ 63) : wrap64 x = x := by
  have hrel : (2 : Int) ^ 64 = 2 ^ 63 * 2 := by norm_num
  unfold wrap64
  rw [Int.emod_eq_of_lt (by linarith) (by linarith)]
  ring

lemma tdiv_eq_ediv_of_nonneg (a b : Int) (ha : 0 ≤ a) (hb : 0 ≤ b) : a.tdiv b = a / b := by
  obtain ⟨m, rfl⟩ := Int.eq_ofNat_of_zero_le ha
  obtain ⟨n, rfl⟩ := Int.eq_ofNat_of_zero_le hb
  rfl

lemma strRepeat_length (n : Nat) (s : String) : (strRepeat n s).length = n * s.length := by
  induction n with
  | zero => simp [strRepeat]
  | succ n ih =>
    simp [strRepeat, String.length_append, ih]
    ring

lemma sum_progressCopies (max pm : Int) (h1 : 1 ≤ max) (h2 : 1 ≤ pm)
    (hnov : max * pm < 2 ^ 63) :
    (∑ cur ∈ Finset.range max.toNat, progressCopies cur max pm) = pm.toNat := by
  have hmax0 : (0 : Int) < max := by omega
  have hmle : max ≤ max * pm := le_mul_of_one_le_right (by omega) h2
  have hA : (0 : Int) < 2 ^ 63 := by positivity
  have key : ∀ cur : Nat, (cur : Int) < max →
      (progressCopies cur max pm : Int)
        = ((cur : Int) + 1) * pm / max - (cur : Int) * pm / max := by
    intro cur hcur
    have hc0 : (0 : Int) ≤ (cur : Int) := Int.natCast_nonneg cur
    have hp1 : (cur : Int) * pm < max * pm := Int.mul_lt_mul_of_pos_right hcur (by omega)
    have hp1' : (0 : Int) ≤ (cur : Int) * pm := mul_nonneg hc0 (by omega)
    have hp2 : ((cur : Int) + 1) * pm ≤ max * pm :=
      mul_le_mul_of_nonneg_right (by omega) (by omega)
    have hp2' : (0 : Int) ≤ ((cur : Int) + 1) * pm := mul_nonneg (by omega) (by omega)
    unfold progressCopies
    rw [if_neg (by omega), if_neg (by omega)]
    rw [wrap64_eq_self ((cur : Int) + 1) (by linarith) (by linarith)]
    rw [wrap64_eq_self (((cur : Int) + 1) * pm) (by linarith) (by linarith)]
    rw [wrap64_eq_self ((cur : Int) * pm) (by linarith) (by linarith)]
    rw [tdiv_eq_ediv_of_nonneg _ _ hp2' (by omega), tdiv_eq_ediv_of_nonneg _ _ hp1' (by omega)]
    refine Int.toNat_of_nonneg ?_
    have hmono : (cur : Int) * pm / max ≤ ((cur : Int) + 1) * pm / max :=
      Int.ediv_le_ediv hmax0 (by nlinarith)
    omega
  have main : ((∑ cur ∈ Finset.range max.toNat, progressCopies cur max pm : Nat) : Int) = pm := by
    push_cast
    rw [Finset.sum_congr rfl fun cur hcur =>
      key cur (by have := Finset.mem_range.mp hcur; omega)]
    have tele := Finset.sum_range_sub (fun i : Nat => ((i : Int) * pm / max)) max.toNat
    simp only at tele
    rw [show (∑ cur ∈ Finset.range max.toNat,
          (((cur : Int) + 1) * pm / max - (cur : Int) * pm / max))
        = (∑ cur ∈ Finset.range max.toNat,
          ((((cur + 1 : Nat) : Int)) * pm / max - ((cur : Int)) * pm / max)) from
      Finset.sum_congr rfl fun cur _ => by norm_cast]
    rw [tele]
    simp only [Nat.cast_zero, Int.zero_mul, Int.zero_ediv, sub_zero]
    rw [Int.toNat_of_nonneg (by omega : (0 : Int) ≤ max)]
    exact Int.mul_ediv_cancel_left pm (by omega)
  omega

lemma LOG_val : LOG = 0 := rfl

lemma INFO_val : INFO = 1 := rfl

lemma WARN_val : WARN = 2 := rfl

lemma ERROR_val : ERROR = 3 := rfl

lemma CRITICAL_val : CRITICAL = 4 := rfl

/-- C1: the claim says `SetOutput(level, nil)` restores the documented default
sink for every valid level (stdout for LOG and INFO, stderr for WARN, ERROR
and CRITICAL), and that invalid levels change nothing.  The invalid-level part
and the LOG/INFO/CRITICAL defaults hold, but for WARN and ERROR the source's
`switch` has empty case bodies (Go cases do not fall through), so a nil sink
is stored instead of stderr: this theorem evaluates `SetOutput` at the failing
inputs and at the correct ones. -/
theorem c1_setOutput_nil_defaults :
    (NewLogger.SetOutput WARN none).output WARN = none
    ∧ (NewLogger.SetOutput ERROR none).output ERROR = none
    ∧ (NewLogger.SetOutput LOG none).output LOG = some Writer.stdout
    ∧ (NewLogger.SetOutput INFO none).output INFO = some Writer.stdout
    ∧ (NewLogger.SetOutput CRITICAL none).output CRITICAL = some Writer.stderr
    ∧ NewLogger.SetOutput (-1) none = NewLogger
    ∧ NewLogger.SetOutput 5 (some (Writer.custom 0 false)) = NewLogger :=
  ⟨rfl, rfl, rfl, rfl, rfl, rfl, rfl⟩

/-- C3: the claimed invariant "every level in [LOG, CRITICAL] has exactly one
non-absent associated sink" is violated in a state reachable from `NewLogger`
by the single public call `SetOutput(WARN, nil)`, which stores a nil sink for
WARN (the same `switch` fall-through slip as in C1). -/
theorem c3_reachable_nil_sink :
    Reachable (NewLogger.SetOutput WARN none)
    ∧ (NewLogger.SetOutput WARN none).output WARN = none :=
  ⟨⟨[Op.setOutput WARN none], rfl⟩, rfl⟩

/-- C2 counterexample: on a fresh logger with exactly one pushed override
layer (three saved flags), a CRITICAL emission panics with its message and
leaves the logger — including the override stack and the overridden flags —
untouched: no layer is popped, refuting the claim's "regardless of whether
... the level was CRITICAL". -/
theorem c2_critical_skips_pop :
    (NewLogger.OverridePrefix true true true).overrideStack.length = 3
    ∧ ((NewLogger.OverridePrefix true true true).Critical envA "boom").panicMsg = some "boom"
    ∧ ((NewLogger.OverridePrefix true true true).Critical envA "boom").logger
        = NewLogger.OverridePrefix true true true :=
  ⟨rfl, rfl, rfl⟩

/-- C6: for every logger state (with verbosity in the documented range, which
every reachable state satisfies) Critical, Criticalf and Criticalln panic with
exactly the formatted message text — a trailing newline for Criticalln —
write nothing to any sink, prepend no prefix to the payload, and leave the
logger untouched. -/
theorem c6_critical_panics (l : Logger) (env : LogEnv) (msg : String)
    (h : l.verbosity ≤ CRITICAL) :
    l.Critical env msg = { logger := l, writes := [], panicMsg := some msg }
    ∧ l.Criticalf env msg = { logger := l, writes := [], panicMsg := some msg }
    ∧ l.Criticalln env msg = { logger := l, writes := [], panicMsg := some (msg ++ "\n") } := by
  have crit : ∀ m : String,
      l.emitAt CRITICAL env m = { logger := l, writes := [], panicMsg := some m } := by
    intro m
    unfold Logger.emitAt Logger.logf
    rw [logfAux.eq_def]
    simp only
    rw [if_neg (show ¬ (4 : Int) > 4 by omega), if_pos (show l.verbosity ≤ (4 : Int) from h),
      if_pos rfl]
  exact ⟨crit msg, crit msg, crit (msg ++ "\n")⟩

/-- Witness for C6 at a concrete input. -/
theorem c6_critical_panics_witness :
    NewLogger.Critical envA "boom" = { logger := NewLogger, writes := [], panicMsg := some "boom" }
    ∧ NewLogger.Criticalf envA "boom"
        = { logger := NewLogger, writes := [], panicMsg := some "boom" }
    ∧ NewLogger.Criticalln envA "boom"
        = { logger := NewLogger, writes := [], panicMsg := some ("boom" ++ "\n") } :=
  c6_critical_panics NewLogger envA "boom" (by decide)

/-- C9: SetVerbosity followed by GetVerbosity returns the level clamped into
[LOG, CRITICAL]; IncreaseVerbosity at CRITICAL and DecreaseVerbosity at LOG
leave the verbosity unchanged, otherwise each moves it by exactly one level,
and both return the resulting verbosity value. -/
theorem c9_verbosity_clamp_and_steps (l : Logger) (L : Int) :
    ((l.SetVerbosity L).GetVerbosity = max LOG (min CRITICAL L))
    ∧ (LOG ≤ (l.SetVerbosity L).GetVerbosity ∧ (l.SetVerbosity L).GetVerbosity ≤ CRITICAL)
    ∧ (l.verbosity = CRITICAL → l.IncreaseVerbosity = (l, CRITICAL))
    ∧ (l.verbosity < CRITICAL →
        l.IncreaseVerbosity = ({ l with verbosity := l.verbosity + 1 }, l.verbosity + 1))
    ∧ (l.verbosity = LOG → l.DecreaseVerbosity = (l, LOG))
    ∧ (LOG < l.verbosity →
        l.DecreaseVerbosity = ({ l with verbosity := l.verbosity - 1 }, l.verbosity - 1))
    ∧ l.IncreaseVerbosity.2 = l.IncreaseVerbosity.1.verbosity
    ∧ l.DecreaseVerbosity.2 = l.DecreaseVerbosity.1.verbosity := by
  refine ⟨?_, ⟨?_, ?_⟩, ?_, ?_, ?_, ?_, rfl, rfl⟩
  · unfold Logger.SetVerbosity Logger.GetVerbosity
    simp only [LOG_val, CRITICAL_val]
    split_ifs <;> omega
  · unfold Logger.SetVerbosity Logger.GetVerbosity
    simp only [LOG_val, CRITICAL_val]
    split_ifs <;> omega
  · unfold Logger.SetVerbosity Logger.GetVerbosity
    simp only [LOG_val, CRITICAL_val]
    split_ifs <;> omega
  · intro h
    have h' : l.verbosity = (4 : Int) := h
    unfold Logger.IncreaseVerbosity
    simp only
    rw [if_neg (show ¬ l.verbosity < (4 : Int) by omega)]
    rw [Prod.mk.injEq]
    exact ⟨rfl, h'⟩
  · intro h
    have h' : l.verbosity < (4 : Int) := h
    unfold Logger.IncreaseVerbosity
    simp only
    rw [if_pos h']
  · intro h
    have h' : l.verbosity = (0 : Int) := h
    unfold Logger.DecreaseVerbosity
    simp only
    rw [if_neg (show ¬ l.verbosity > (0 : Int) by omega)]
    rw [Prod.mk.injEq]
    exact ⟨rfl, h'⟩
  · intro h
    have h' : l.verbosity > (0 : Int) := h
    unfold Logger.DecreaseVerbosity
    simp only
    rw [if_pos h']

/-- Witness for C9 at a concrete input. -/
theorem c9_verbosity_clamp_and_steps_witness :
    (NewLogger.SetVerbosity 7).GetVerbosity = max LOG (min CRITICAL 7)
    ∧ NewLogger.IncreaseVerbosity
        = ({ NewLogger with verbosity := NewLogger.verbosity + 1 }, NewLogger.verbosity + 1) := by
  obtain ⟨h1, _, _, h4, _, _, _, _⟩ := c9_verbosity_clamp_and_steps NewLogger 7
  exact ⟨h1, h4 (by decide)⟩

/-- C4 counterexample: at `max = 4`, `progressMax = 2^62` the intermediate
products overflow Go's 64-bit int (`2 * 2^62 = 2^63` wraps to `-2^63`), and
the full sweep `cur = 0..3` emits `3 * 2^60` symbols, not `2^62`: the claim
as stated fails on the program's wrapping arithmetic. -/
theorem c4_sum_overflow_counterexample :
    (∑ cur ∈ Finset.range 4, (Progress cur 4 (2 ^ 62) "*").length) = 3 * 2 ^ 60
    ∧ (3 * 2 ^ 60 : Nat) ≠ (2 ^ 62 : Int).toNat := by
  constructor
  · have e : (∑ cur ∈ Finset.range 4, (Progress cur 4 (2 ^ 62) "*").length)
        = ∑ cur ∈ Finset.range 4, progressCopies cur 4 (2 ^ 62) := by
      refine Finset.sum_congr rfl fun cur _ => ?_
      rw [Progress_eq_strRepeat, strRepeat_length, show "*".length = 1 from rfl, Nat.mul_one]
    rw [e]
    decide
  · decide

/-- C4 (amended): whenever the sweep stays inside the 64-bit int range
(`max * progressMax < 2^63`, so no intermediate product wraps — which every
overflow-free use satisfies), the number of copies of the symbol that
`Progress` emits over `cur = 0 .. max-1` sums to exactly `progressMax`; the
second conjunct ties the per-call count to `Progress` itself, which returns
exactly that many concatenated copies.  Without the bound the claim fails on
the program's wrapping arithmetic (see the counterexample). -/
theorem c4_progress_symbol_total (max pm : Int) (symbol : String)
    (h1 : 1 ≤ max) (h2 : 1 ≤ pm) (hnov : max * pm < 2 ^ 63) :
    (∑ cur ∈ Finset.range max.toNat, progressCopies cur max pm) = pm.toNat
    ∧ ∀ cur : Nat, Progress cur max pm symbol = strRepeat (progressCopies cur max pm) symbol :=
  ⟨sum_progressCopies max pm h1 h2 hnov, fun cur => Progress_eq_strRepeat cur max pm symbol⟩

/-- Witness for C4 at a concrete input (max = 4, progressMax = 2). -/
theorem c4_progress_symbol_total_witness :
    (∑ cur ∈ Finset.range 4, progressCopies cur 4 2) = 2
    ∧ Progress 1 4 2 "*" = strRepeat (progressCopies 1 4 2) "*" := by
  obtain ⟨hs, hp⟩ := c4_progress_symbol_total 4 2 "*" (by decide) (by decide) (by norm_num)
  exact ⟨hs, hp 1⟩

/-- C5 counterexample: at `cur = 2^61`, `max = 2^62`, `progressMax = 4` the
product `cur * progressMax = 2^63` wraps to `-2^63`; the program computes
`i1 = -2`, `i2 = -1` and prints one symbol, while the claim's floor formula
gives `i1 = i2 = 2`, i.e. zero copies (the empty string). -/
theorem c5_formula_overflow_counterexample :
    Progress (2 ^ 61) (2 ^ 62) 4 "*" = "*"
    ∧ (((2 ^ 61 : Int) + 1) * 4 / 2 ^ 62 - (2 ^ 61 : Int) * 4 / 2 ^ 62).toNat = 0 :=
  ⟨rfl, rfl⟩

/-- C5 (amended): `Progress` returns the empty string whenever `max < 1`,
`progressMax < 1` or `cur` lies outside `[0, max)`; when additionally no
intermediate product wraps the 64-bit int range
(`(cur+1) * progressMax < 2^63`) it returns exactly `i2 - i1` concatenated
copies of the symbol with `i1 = cur * progressMax / max` and
`i2 = (cur+1) * progressMax / max` (floor division; the operands are
non-negative here).  Under overflow the program divides the wrapped products
instead (see the counterexample).  `Progress` takes no `Logger` argument, so
it reads and writes no logger state by construction. -/
theorem c5_progress_closed_form (cur max pm : Int) (symbol : String) :
    ((max < 1 ∨ pm < 1 ∨ cur < 0 ∨ max ≤ cur) → Progress cur max pm symbol = "")
    ∧ (1 ≤ pm → 0 ≤ cur → cur < max → (cur + 1) * pm < 2 ^ 63 →
        Progress cur max pm symbol
          = strRepeat ((cur + 1) * pm / max - cur * pm / max).toNat symbol) := by
  constructor
  · intro h
    unfold Progress
    by_cases h1 : max < 1 ∨ pm < 1
    · rw [if_pos h1]
    · rw [if_neg h1, if_pos (show cur < 0 ∨ cur ≥ max by omega)]
  · intro hpm h0 hm hnov
    have hA : (0 : Int) < 2 ^ 63 := by positivity
    have hcp : (0 : Int) ≤ cur * pm := mul_nonneg h0 (by omega)
    have hcp1 : (0 : Int) ≤ (cur + 1) * pm := mul_nonneg (by omega) (by omega)
    have hle : cur * pm ≤ (cur + 1) * pm := mul_le_mul_of_nonneg_right (by omega) (by omega)
    have hc1 : cur + 1 ≤ (cur + 1) * pm := le_mul_of_one_le_right (by omega) hpm
    rw [Progress_eq_strRepeat]
    congr 1
    unfold progressCopies
    rw [if_neg (by omega), if_neg (by omega)]
    rw [wrap64_eq_self (cur + 1) (by linarith) (by linarith)]
    rw [wrap64_eq_self ((cur + 1) * pm) (by linarith) (by linarith)]
    rw [wrap64_eq_self (cur * pm) (by linarith) (by linarith)]
    rw [tdiv_eq_ediv_of_nonneg _ _ hcp1 (by omega), tdiv_eq_ediv_of_nonneg _ _ hcp (by omega)]

/-- Witness for C5 at concrete inputs (one out of range, one in range). -/
theorem c5_progress_closed_form_witness :
    Progress 5 4 2 "*" = ""
    ∧ Progress 1 4 2 "*" = strRepeat ((((1 : Int) + 1) * 2 / 4 - 1 * 2 / 4)).toNat "*" := by
  obtain ⟨hg, _⟩ := c5_progress_closed_form 5 4 2 "*"
  obtain ⟨_, hf⟩ := c5_progress_closed_form 1 4 2 "*"
  exact ⟨hg (by decide), hf (by decide) (by decide) (by decide) (by norm_num)⟩

lemma popOverride_verbosity (l : Logger) : l.popOverride.verbosity = l.verbosity := by
  unfold Logger.popOverride
  split <;> rfl

lemma popOverride_output (l : Logger) : l.popOverride.output = l.output := by
  unfold Logger.popOverride
  split <;> rfl

lemma popOverride_fmtTimestamp (l : Logger) : l.popOverride.fmtTimestamp = l.fmtTimestamp := by
  unfold Logger.popOverride
  split <;> rfl

/-- C2 (amended): a non-CRITICAL emission that is suppressed by verbosity or
whose destination write succeeds pops exactly one override layer (one saved
triple) and restores the three prefix flags from it; a CRITICAL emission
panics before the pop and consumes no layer (see the counterexample), and a
failed sink write consumes a further layer through the internal ERROR-level
diagnostic emission. -/
theorem c2_nonCritical_pops_one_layer (l : Logger) (lvl : Int) (env : LogEnv) (msg : String)
    (pre : List Bool) (a b c : Bool)
    (hstack : l.overrideStack = pre ++ [a, b, c])
    (hlvl : lvl ≤ ERROR)
    (hok : lvl < l.verbosity ∨ ∃ wr, l.getOutput lvl = some wr ∧ wr.fails = false) :
    (l.emitAt lvl env msg).logger.overrideStack = pre
    ∧ (l.emitAt lvl env msg).logger.prefixTS = a
    ∧ (l.emitAt lvl env msg).logger.prefixCaller = b
    ∧ (l.emitAt lvl env msg).logger.prefixLevel = c
    ∧ (l.emitAt lvl env msg).panicMsg = none := by
  have hpop := popOverride_of_append l pre a b c hstack
  by_cases hs : lvl < l.verbosity
  · rw [emitAt_suppressed l lvl env msg hlvl hs]
    simp [hpop]
  · rcases hok with hok | ⟨wr, hw, hf⟩
    · exact absurd hok hs
    · rw [emitAt_written l lvl env msg wr hlvl (by omega) hw hf]
      simp [hpop]

/-- Witness for C2's amended theorem: an emitted (non-suppressed) ERROR call
on a logger with one pushed layer. -/
theorem c2_nonCritical_pops_one_layer_witness :
    ((NewLogger.OverridePrefix true true true).emitAt ERROR envA "m").logger.overrideStack = []
    ∧ ((NewLogger.OverridePrefix true true true).emitAt ERROR envA "m").logger.prefixTS = false
    ∧ ((NewLogger.OverridePrefix true true true).emitAt ERROR envA "m").logger.prefixCaller = false
    ∧ ((NewLogger.OverridePrefix true true true).emitAt ERROR envA "m").logger.prefixLevel = false
    ∧ ((NewLogger.OverridePrefix true true true).emitAt ERROR envA "m").panicMsg = none :=
  c2_nonCritical_pops_one_layer (NewLogger.OverridePrefix true true true) ERROR envA "m"
    [] false false false rfl (by decide) (Or.inr ⟨Writer.stderr, rfl, rfl⟩)

/-- C7: a non-CRITICAL emission whose level is strictly below the current
verbosity writes nothing and raises nothing, leaves verbosity, sinks and
timestamp format unchanged, and — if at least one override layer was pushed —
pops exactly one layer and restores the saved prefix flags. -/
theorem c7_suppressed_consumes_layer (l : Logger) (lvl : Int) (env : LogEnv) (msg : String)
    (hlvl : lvl ≤ ERROR) (hsup : lvl < l.verbosity) :
    (l.emitAt lvl env msg).writes = []
    ∧ (l.emitAt lvl env msg).panicMsg = none
    ∧ (l.emitAt lvl env msg).logger.verbosity = l.verbosity
    ∧ (l.emitAt lvl env msg).logger.output = l.output
    ∧ (l.emitAt lvl env msg).logger.fmtTimestamp = l.fmtTimestamp
    ∧ ∀ pre a b c, l.overrideStack = pre ++ [a, b, c] →
        (l.emitAt lvl env msg).logger.overrideStack = pre
        ∧ (l.emitAt lvl env msg).logger.prefixTS = a
        ∧ (l.emitAt lvl env msg).logger.prefixCaller = b
        ∧ (l.emitAt lvl env msg).logger.prefixLevel = c := by
  rw [emitAt_suppressed l lvl env msg hlvl hsup]
  refine ⟨rfl, rfl, popOverride_verbosity l, popOverride_output l, popOverride_fmtTimestamp l,
    fun pre a b c h => ?_⟩
  rw [popOverride_of_append l pre a b c h]
  exact ⟨rfl, rfl, rfl, rfl⟩

/-- Witness for C7: a suppressed LOG emission (verbosity INFO) with one
pushed override layer. -/
theorem c7_suppressed_consumes_layer_witness :
    ((NewLogger.OverridePrefix true true true).emitAt LOG envA "m").writes = []
    ∧ ((NewLogger.OverridePrefix true true true).emitAt LOG envA "m").panicMsg = none
    ∧ ((NewLogger.OverridePrefix true true true).emitAt LOG envA "m").logger.verbosity
        = (NewLogger.OverridePrefix true true true).verbosity
    ∧ ((NewLogger.OverridePrefix true true true).emitAt LOG envA "m").logger.overrideStack = []
    ∧ ((NewLogger.OverridePrefix true true true).emitAt LOG envA "m").logger.prefixTS = false := by
  obtain ⟨w1, w2, w3, _, _, w6⟩ :=
    c7_suppressed_consumes_layer (NewLogger.OverridePrefix true true true) LOG envA "m"
      (by decide) (by decide)
  obtain ⟨s1, s2, _, _⟩ := w6 [] false false false rfl
  exact ⟨w1, w2, w3, s1, s2⟩

/-- C10: on a logger whose override stack is empty, a non-CRITICAL emission
leaves the logger state — in particular the three prefix flags and the
override stack — completely unchanged: the pop after an emission is a no-op
when nothing was pushed.  This holds on every branch of the pipeline
(suppressed, written, failing write with its internal ERROR retry). -/
theorem c10_pop_noop_on_empty_stack (l : Logger) (lvl : Int) (env : LogEnv) (msg : String)
    (hempty : l.overrideStack = []) (_h0 : 0 ≤ lvl) (_h3 : lvl ≤ ERROR) :
    (l.emitAt lvl env msg).logger = l :=
  logfAux_logger_of_nilStack 8 l (l.getOutput lvl) lvl env msg hempty

/-- Witness for C10: a written WARN emission on a fresh logger. -/
theorem c10_pop_noop_on_empty_stack_witness :
    (NewLogger.emitAt WARN envA "m").logger = NewLogger :=
  c10_pop_noop_on_empty_stack NewLogger WARN envA "m" rfl (by decide) (by decide)

lemma emitAt_clean (l : Logger) (lvl : Int) (env : LogEnv) (msg : String)
    (hlvl : lvl ≤ ERROR)
    (hok : lvl < l.verbosity ∨ ∃ wr, l.getOutput lvl = some wr ∧ wr.fails = false) :
    (l.emitAt lvl env msg).logger = l.popOverride
    ∧ (l.emitAt lvl env msg).panicMsg = none
    ∧ (l.verbosity ≤ lvl →
        ∃ wr, (l.emitAt lvl env msg).writes = [(wr, l.getLogPrefixStr env lvl ++ msg)]) := by
  by_cases hs : lvl < l.verbosity
  · rw [emitAt_suppressed l lvl env msg hlvl hs]
    exact ⟨rfl, rfl, fun hc => absurd hc (by omega)⟩
  · rcases hok with hok | ⟨wr, hw, hf⟩
    · exact absurd hok hs
    · rw [emitAt_written l lvl env msg wr hlvl (by omega) hw hf]
      exact ⟨rfl, rfl, fun _ => ⟨wr, rfl⟩⟩

/-- C8: overriding twice then emitting twice behaves as a LIFO stack: each
`OverridePrefix` call immediately applies its flags and pushes the prior
triple (returning the updated logger for chaining); the first emission builds
its prefix from the second override's flags and restores the first override's
flags, the second emission builds its prefix from the first override's flags
and restores the original pre-override flags, so a third emission builds its
prefix from the original flags.  The emissions are non-CRITICAL and either
suppressed or with a non-failing sink. -/
theorem c8_override_stack_is_lifo (l : Logger) (t1ts t1c t1l t2ts t2c t2l : Bool)
    (lvl1 lvl2 : Int) (env1 env2 : LogEnv) (msg1 msg2 : String)
    (h1 : lvl1 ≤ ERROR) (h2 : lvl2 ≤ ERROR)
    (hok1 : lvl1 < l.verbosity ∨ ∃ wr, l.getOutput lvl1 = some wr ∧ wr.fails = false)
    (hok2 : lvl2 < l.verbosity ∨ ∃ wr, l.getOutput lvl2 = some wr ∧ wr.fails = false) :
    ∀ lB r1 r2,
      lB = (l.OverridePrefix t1ts t1c t1l).OverridePrefix t2ts t2c t2l →
      r1 = lB.emitAt lvl1 env1 msg1 →
      r2 = r1.logger.emitAt lvl2 env2 msg2 →
      (lB.prefixTS = t2ts ∧ lB.prefixCaller = t2c ∧ lB.prefixLevel = t2l)
      ∧ lB.overrideStack
          = l.overrideStack ++ [l.prefixTS, l.prefixCaller, l.prefixLevel] ++ [t1ts, t1c, t1l]
      ∧ (l.verbosity ≤ lvl1 → ∃ wr, r1.writes = [(wr, lB.getLogPrefixStr env1 lvl1 ++ msg1)])
      ∧ (r1.logger.prefixTS = t1ts ∧ r1.logger.prefixCaller = t1c ∧ r1.logger.prefixLevel = t1l)
      ∧ r1.logger.overrideStack = l.overrideStack ++ [l.prefixTS, l.prefixCaller, l.prefixLevel]
      ∧ (l.verbosity ≤ lvl2 →
          ∃ wr, r2.writes = [(wr, r1.logger.getLogPrefixStr env2 lvl2 ++ msg2)])
      ∧ (r2.logger.prefixTS = l.prefixTS ∧ r2.logger.prefixCaller = l.prefixCaller
          ∧ r2.logger.prefixLevel = l.prefixLevel)
      ∧ r2.logger.overrideStack = l.overrideStack
      ∧ ∀ env3 lvl3, r2.logger.getLogPrefixStr env3 lvl3 = l.getLogPrefixStr env3 lvl3 := by
  intro lB r1 r2 hB hr1 hr2
  subst hB
  subst hr1
  subst hr2
  obtain ⟨e1log, _e1p, e1w⟩ :=
    emitAt_clean ((l.OverridePrefix t1ts t1c t1l).OverridePrefix t2ts t2c t2l)
      lvl1 env1 msg1 h1 hok1
  have hpop1 : ((l.OverridePrefix t1ts t1c t1l).OverridePrefix t2ts t2c t2l).popOverride
      = { l with prefixTS := t1ts, prefixCaller := t1c, prefixLevel := t1l, overrideStack := l.overrideStack ++ [l.prefixTS, l.prefixCaller, l.prefixLevel] } :=
    popOverride_of_append _
      (l.overrideStack ++ [l.prefixTS, l.prefixCaller, l.prefixLevel]) t1ts t1c t1l rfl
  have r1log : (((l.OverridePrefix t1ts t1c t1l).OverridePrefix t2ts t2c t2l).emitAt
        lvl1 env1 msg1).logger
      = { l with prefixTS := t1ts, prefixCaller := t1c, prefixLevel := t1l, overrideStack := l.overrideStack ++ [l.prefixTS, l.prefixCaller, l.prefixLevel] } := by
    rw [e1log, hpop1]
  obtain ⟨e2log, _e2p, e2w⟩ :=
    emitAt_clean
      { l with prefixTS := t1ts, prefixCaller := t1c, prefixLevel := t1l, overrideStack := l.overrideStack ++ [l.prefixTS, l.prefixCaller, l.prefixLevel] }
      lvl2 env2 msg2 h2 hok2
  have hpop2 : Logger.popOverride
      { l with prefixTS := t1ts, prefixCaller := t1c, prefixLevel := t1l, overrideStack := l.overrideStack ++ [l.prefixTS, l.prefixCaller, l.prefixLevel] }
      = l :=
    popOverride_of_append _ l.overrideStack l.prefixTS l.prefixCaller l.prefixLevel rfl
  have r2log : ((((l.OverridePrefix t1ts t1c t1l).OverridePrefix t2ts t2c t2l).emitAt
        lvl1 env1 msg1).logger.emitAt lvl2 env2 msg2).logger = l := by
    rw [r1log, e2log, hpop2]
  refine ⟨⟨rfl, rfl, rfl⟩, rfl, e1w, ?_, ?_, ?_, ?_, ?_, ?_⟩
  · rw [r1log]
    exact ⟨rfl, rfl, rfl⟩
  · rw [r1log]
  · rw [r1log]
    exact e2w
  · rw [r2log]
    exact ⟨rfl, rfl, rfl⟩
  · rw [r2log]
  · intro env3 lvl3
    rw [r2log]

/-- Witness for C8 at a concrete input: base = fresh logger (all prefix flags
off), first override (true,false,false), second override (false,true,false),
two ERROR-level emissions. -/
theorem c8_override_stack_is_lifo_witness :
    ((NewLogger.OverridePrefix true false false).OverridePrefix false true false).prefixCaller
        = true
    ∧ ((((NewLogger.OverridePrefix true false false).OverridePrefix false true false).emitAt
          ERROR envA "m1").logger.prefixTS = true)
    ∧ (((((NewLogger.OverridePrefix true false false).OverridePrefix false true false).emitAt
          ERROR envA "m1").logger.emitAt ERROR envA "m2").logger.prefixTS = false)
    ∧ (((((NewLogger.OverridePrefix true false false).OverridePrefix false true false).emitAt
          ERROR envA "m1").logger.emitAt ERROR envA "m2").logger.overrideStack = []) := by
  obtain ⟨⟨_, f2, _⟩, _, _, ⟨d1, _, _⟩, _, _, ⟨g1, _, _⟩, hstk, _⟩ :=
    c8_override_stack_is_lifo NewLogger true false false false true false ERROR ERROR
      envA envA "m1" "m2" (by decide) (by decide)
      (Or.inr ⟨Writer.stderr, rfl, rfl⟩) (Or.inr ⟨Writer.stderr, rfl, rfl⟩)
      _ _ _ rfl rfl rfl
  exact ⟨f2, d1, g1, hstk⟩

end Logging
